import Mathlib

/-!
Verification of `relay_control.py` (USBPowerSwitch): a shallow embedding of
the port resolver and the relay transaction engine, with theorems checking
the natural-language specification against the code.

Bytes are modelled as `Nat` values (the code only compares byte values and
never performs arithmetic on them), byte strings from the serial link as
`List Nat`, and Python text strings as `List Char`.
-/

namespace RelayControl

/-! ## Constants (source: CONSTANTS section of relay_control.py) -/

/-- Source constant `CMD_OFF = bytes([0xA0, 0x01, 0x00, 0xA1])`. -/
def CMD_OFF : List Nat := [0xA0, 0x01, 0x00, 0xA1]

/-- Source constant `CMD_ON = bytes([0xA0, 0x01, 0x03, 0xA4])`. -/
def CMD_ON : List Nat := [0xA0, 0x01, 0x03, 0xA4]

/-- Source constant `CMD_TOGGLE = bytes([0xA0, 0x01, 0x04, 0xA5])`. -/
def CMD_TOGGLE : List Nat := [0xA0, 0x01, 0x04, 0xA5]

/-- Source constant `CMD_STATUS = bytes([0xA0, 0x01, 0x05, 0xA6])`. -/
def CMD_STATUS : List Nat := [0xA0, 0x01, 0x05, 0xA6]

/-- Source constant `RESPONSE_HEADER = (0xA0, 0x01)`. -/
def RESPONSE_HEADER : Nat × Nat := (0xA0, 0x01)

/-- Source constant `STATE_ON = 0x01`. -/
def STATE_ON : Nat := 0x01

/-- Source constant `STATE_OFF = 0x00`. -/
def STATE_OFF : Nat := 0x00

/-- Source constant `CH340_KEYWORDS = ["CH340", "CH341", "USB-SERIAL"]`. -/
def CH340_KEYWORDS : List (List Char) := ["CH340".data, "CH341".data, "USB-SERIAL".data]

/-- Source constant `USB_KEYWORDS = ["USB"]`. -/
def USB_KEYWORDS : List (List Char) := ["USB".data]

/-! ## Response parsing (source: `RelayController._parse_status`) -/

/--
Source method `_parse_status(response)`:
```
if not response or len(response) < 4: return None
if response[0] == RESPONSE_HEADER[0] and response[1] == RESPONSE_HEADER[1]:
    return response[2] == STATE_ON
return None
```
`none` models Python `None` (no response); `some []` (empty bytes) is falsy in
Python and also has length `< 4`, so both paths agree. Out-of-range indexing
never occurs because the length guard runs first; `getD` with default `0` is
used for indexing under that guard.
-/
def parseStatus : Option (List Nat) → Option Bool
  | none => none
  | some r =>
    if r.length < 4 then none
    else if r.getD 0 0 == RESPONSE_HEADER.1 && r.getD 1 0 == RESPONSE_HEADER.2 then
      some (r.getD 2 0 == STATE_ON)
    else none

/-! ## Connection state and the transaction engine
(source: `RelayController._send_command`, `_execute_action`, the four
public actions, `__enter__`, `__exit__`) -/

/-- The serial connection as the transaction engine sees it: whether the
handle is open (`serial_port is not None and serial_port.is_open` collapsed
into the `Option` wrapping plus this flag), the bytes the device has placed
in the input buffer by the time the settle wait ends (`in_waiting` bytes),
and the trace of frames written so far. -/
structure Conn where
  is_open : Bool
  inBuffer : List Nat
  written : List (List Nat)
deriving Repr, DecidableEq

/-- Errors a transaction can raise (spec section 7 names; both are
`RuntimeError` / `serial.SerialException` in the source). -/
inductive TxError
  | lifecycleViolation
  | transportFailure (reason : List Char)
deriving Repr, DecidableEq

/--
Source method `_send_command(command)`:
```
if not self.serial_port or not self.serial_port.is_open:
    raise RuntimeError("Serial port not opened")
self.serial_port.write(command); self.serial_port.flush()
time.sleep(RESPONSE_DELAY)
if self.serial_port.in_waiting > 0:
    return self.serial_port.read(self.serial_port.in_waiting)
return None
```
The write is recorded in the trace; `read(in_waiting)` consumes exactly the
bytes buffered at check time, in one pass, with no retry.
-/
def sendCommand (c : Conn) (command : List Nat) :
    Except TxError (Option (List Nat) × Conn) :=
  if !c.is_open then .error .lifecycleViolation
  else
    let c1 : Conn := { c with written := c.written ++ [command] }
    if c1.inBuffer.length > 0 then
      .ok (some c1.inBuffer, { c1 with inBuffer := [] })
    else
      .ok (none, c1)

/-- Source method `_execute_action`: send the command, parse the response into the
tri-state verdict (printing omitted: it does not touch the data model). -/
def executeAction (c : Conn) (command : List Nat) :
    Except TxError (Option Bool × Conn) :=
  match sendCommand c command with
  | .error e => .error e
  | .ok (resp, c') => .ok (parseStatus resp, c')

/-- Source method `turn_on`: `self._execute_action("Turning relay ON", CMD_ON)`. -/
def turn_on (c : Conn) : Except TxError (Option Bool × Conn) :=
  executeAction c CMD_ON

/-- Source method `turn_off`: `self._execute_action("Turning relay OFF", CMD_OFF)`. -/
def turn_off (c : Conn) : Except TxError (Option Bool × Conn) :=
  executeAction c CMD_OFF

/-- Source method `toggle`: `self._execute_action("Toggling relay", CMD_TOGGLE)`. -/
def toggle (c : Conn) : Except TxError (Option Bool × Conn) :=
  executeAction c CMD_TOGGLE

/-- Source method `query_status`: `self._execute_action("Querying relay status", CMD_STATUS)`. -/
def query_status (c : Conn) : Except TxError (Option Bool × Conn) :=
  executeAction c CMD_STATUS

/-- Source method `__enter__` opens the port and clears both buffers
(`reset_input_buffer` / `reset_output_buffer`). -/
def openConn : Conn := { is_open := true, inBuffer := [], written := [] }

/-- Source method `__exit__(self, *_)`:
```
if self.serial_port and self.serial_port.is_open:
    self.serial_port.close()
```
Total: a `None` handle (connection never opened) is left untouched, an open
handle is closed, a closed handle stays closed. -/
def exitHandler (sp : Option Conn) : Option Conn :=
  match sp with
  | none => none
  | some c => if c.is_open then some { c with is_open := false } else some c

/-- The `with controller:` scope of `main`: enter opens a fresh connection,
the body runs the transaction (threading the connection state and either
returning a verdict or raising), and `__exit__` runs on every exit path,
normal or raising. -/
def runWith (body : Conn → Except TxError (Option Bool) × Conn) :
    Except TxError (Option Bool) × Option Conn :=
  let rc := body openConn
  (rc.1, exitHandler (some rc.2))

/-! ## Port resolver (source: `RelayController._auto_detect_port`, `__init__`) -/

/-- An enumerated serial port as returned by
`serial.tools.list_ports.comports()`: a device identifier and a free-text
description that may be absent (`port.description` can be `None`). -/
structure PortInfo where
  device : List Char
  description : Option (List Char)
deriving Repr, DecidableEq

/-- A port candidate `(port.device, port.description, tier)` as appended to
the `candidates` list. -/
structure Candidate where
  device : List Char
  desc : Option (List Char)
  tier : Nat
deriving Repr, DecidableEq

/-- Python substring test `needle in hay` on character lists. -/
def containsSub (hay needle : List Char) : Bool :=
  match hay with
  | [] => needle.isEmpty
  | _ :: t => needle.isPrefixOf hay || containsSub t needle

/-- Source expression `desc = (port.description or "").upper()`: a `None` (and an empty)
description collapses to the empty string, then every character is
uppercased. -/
def upperDesc (p : PortInfo) : List Char :=
  (p.description.getD []).map Char.toUpper

/-- The classification step of the enumeration loop:
```
if any(kw in desc for kw in CH340_KEYWORDS):
    candidates.append((port.device, port.description, 1))
elif any(kw in desc for kw in USB_KEYWORDS):
    candidates.append((port.device, port.description, 2))
```
A port matching neither keyword set contributes no candidate. -/
def classify (p : PortInfo) : Option Candidate :=
  let desc := upperDesc p
  if CH340_KEYWORDS.any (fun kw => containsSub desc kw) then
    some { device := p.device, desc := p.description, tier := 1 }
  else if USB_KEYWORDS.any (fun kw => containsSub desc kw) then
    some { device := p.device, desc := p.description, tier := 2 }
  else
    none

/-- The whole enumeration loop: each port contributes its classification,
in enumeration order. -/
def candidatesOf (ports : List PortInfo) : List Candidate :=
  ports.filterMap classify

/-- Stable insertion of a candidate into a tier-sorted list: the new
element goes before the first element of strictly greater tier, after all
elements of equal or smaller tier. -/
def insertByTier (c : Candidate) : List Candidate → List Candidate
  | [] => [c]
  | d :: ds => if c.tier ≤ d.tier then c :: d :: ds else d :: insertByTier c ds

/-- Source call `candidates.sort(key=lambda x: x[2])`: Python `list.sort` is a stable
sort on the given key, and stable sorting is extensionally unique, so it is
embedded as stable insertion sort on the tier. -/
def sortByTier : List Candidate → List Candidate
  | [] => []
  | c :: cs => insertByTier c (sortByTier cs)

/-- The tier of the best candidate: minimum of the tiers of a non-empty
list (`0` for the empty list, where no selection happens). -/
def minTier : List Candidate → Nat
  | [] => 0
  | [c] => c.tier
  | c :: cs => min c.tier (minTier cs)

/-- Outcomes of `_auto_detect_port` other than success; both raise
`RuntimeError` in the source, from two distinct `raise` sites with distinct
messages, and the access failure chains the underlying
`serial.SerialException` (`from e`) and interpolates it into the message. -/
inductive DetectError
  | discoveryFailure
  | accessFailure (port : List Char) (reason : List Char)
deriving Repr, DecidableEq

/--
Source method `_auto_detect_port`, parameterised by the enumerated port list and by the
behaviour `probe` of the confirmation open/close
(`with serial.Serial(port_name, BAUD_RATE, timeout=0.1): pass`), which
either succeeds or raises a `serial.SerialException` with a reason. Returns
the result together with the number of port-open attempts performed:
```
candidates = [...classification loop...]
if not candidates: raise RuntimeError("No USB relay device found...")
candidates.sort(key=lambda x: x[2])
port_name, desc, _ = candidates[0]
try:
    with serial.Serial(port_name, BAUD_RATE, timeout=0.1): pass
except serial.SerialException as e:
    raise RuntimeError(f"Driver check failed for {port_name}: {e}") from e
return port_name
```
-/
def autoDetectPort (ports : List PortInfo)
    (probe : List Char → Except (List Char) Unit) :
    Except DetectError (List Char) × Nat :=
  match candidatesOf ports with
  | [] => (.error .discoveryFailure, 0)
  | c0 :: rest =>
    let sel := (sortByTier (c0 :: rest)).headD c0
    match probe sel.device with
    | .ok _ => (.ok sel.device, 1)
    | .error e => (.error (.accessFailure sel.device e), 1)

/--
Source method `__init__(self, port=None, verbose=False)`:
`self.port_name = port or self._auto_detect_port()`. Python `or` evaluates
the right operand whenever `port` is falsy, i.e. `None` or the empty
string. The second component records whether discovery
(`_auto_detect_port`) was invoked. -/
def relayControllerInit (port : Option (List Char)) (ports : List PortInfo)
    (probe : List Char → Except (List Char) Unit) :
    Except DetectError (List Char) × Bool :=
  match port with
  | none => ((autoDetectPort ports probe).1, true)
  | some p =>
    if p.isEmpty then ((autoDetectPort ports probe).1, true)
    else (.ok p, false)

/-! ## Helper lemmas -/

lemma insertByTier_head? (c : Candidate) (s : List Candidate) :
    (insertByTier c s).head? =
      some (match s.head? with
            | none => c
            | some d => if c.tier ≤ d.tier then c else d) := by
  cases s with
  | nil => rfl
  | cons d ds => by_cases h : c.tier ≤ d.tier <;> simp [insertByTier, h]

lemma sortByTier_cons (c : Candidate) (l : List Candidate) :
    sortByTier (c :: l) = insertByTier c (sortByTier l) := rfl

lemma sortByTier_head?_isSome (c : Candidate) (l : List Candidate) :
    ∃ d, (sortByTier (c :: l)).head? = some d := by
  rw [sortByTier_cons, insertByTier_head?]
  exact ⟨_, rfl⟩

lemma minTier_cons (c d : Candidate) (l : List Candidate) :
    minTier (c :: d :: l) = min c.tier (minTier (d :: l)) := rfl

lemma sortByTier_head?_tier : ∀ (l : List Candidate) (d : Candidate),
    (sortByTier l).head? = some d → d.tier = minTier l := by
  intro l
  induction l with
  | nil => intro d h; simp [sortByTier] at h
  | cons x xs ih =>
    intro d h
    cases xs with
    | nil =>
      simp [sortByTier, insertByTier] at h
      simp [← h, minTier]
    | cons y ys =>
      obtain ⟨e, he⟩ := sortByTier_head?_isSome y ys
      have het : e.tier = minTier (y :: ys) := ih e he
      rw [sortByTier_cons, insertByTier_head?, he, Option.some_inj] at h
      subst h
      rw [minTier_cons, ← het]
      show (if x.tier ≤ e.tier then x else e).tier = x.tier ⊓ e.tier
      split_ifs with hc <;> omega

lemma containsSub_mono {hay n₁ n₂ : List Char} (hn : n₁ <+: n₂)
    (h : containsSub hay n₂ = true) : containsSub hay n₁ = true := by
  induction hay with
  | nil =>
    simp only [containsSub, List.isEmpty_iff] at h ⊢
    subst h
    exact List.prefix_nil.mp hn
  | cons a t ih =>
    simp only [containsSub, Bool.or_eq_true] at h ⊢
    rcases h with h | h
    · left
      rw [List.isPrefixOf_iff_prefix] at h ⊢
      exact hn.trans h
    · right
      exact ih h

/-! ## Claims -/

/-- C1 (counterexample): the claim states that a response with matching
header but state byte `0x02` — such as `[0xA0, 0x01, 0x02, 0x00]` — is
decoded as UNKNOWN; the code's `_parse_status` instead returns
`response[2] == STATE_ON`, i.e. `False` (OFF), for that input. -/
theorem claim_C1_counterexample :
    parseStatus (some [0xA0, 0x01, 0x02, 0x00]) = some false ∧
    parseStatus (some [0xA0, 0x01, 0x02, 0x00]) ≠ none := by
  decide

/-- C1 (amended): `_parse_status` yields ON exactly for responses of
length at least 4 with header `0xA0 0x01` and state byte `0x01`; it yields
OFF exactly for such responses whose state byte is anything other than
`0x01` (not only `0x00`); and it yields UNKNOWN exactly when the response
is absent, shorter than 4 bytes, or has a mismatched header. It is a total
function, so it never raises. -/
theorem claim_C1_parse_status_characterization :
    ∀ r : Option (List Nat),
      (parseStatus r = some true ↔
        ∃ l, r = some l ∧ 4 ≤ l.length ∧
          l.getD 0 0 = 0xA0 ∧ l.getD 1 0 = 0x01 ∧ l.getD 2 0 = 0x01) ∧
      (parseStatus r = some false ↔
        ∃ l, r = some l ∧ 4 ≤ l.length ∧
          l.getD 0 0 = 0xA0 ∧ l.getD 1 0 = 0x01 ∧ l.getD 2 0 ≠ 0x01) ∧
      (parseStatus r = none ↔
        r = none ∨ ∃ l, r = some l ∧
          (l.length < 4 ∨ l.getD 0 0 ≠ 0xA0 ∨ l.getD 1 0 ≠ 0x01)) := by
  intro r
  cases r with
  | none => simp [parseStatus]
  | some l =>
    simp only [parseStatus, RESPONSE_HEADER, STATE_ON]
    split_ifs with h1 h2 <;> simp_all [Bool.and_eq_true, beq_iff_eq]
    omega

/-- C2: each of the four public operations writes exactly its literal
4-byte command constant — OFF: `A0 01 00 A1`, ON: `A0 01 03 A4`, TOGGLE:
`A0 01 04 A5`, STATUS: `A0 01 05 A6` — appended to the write trace, for
every prior connection state; the encoding is a closed constant, hence
pure and deterministic, and nothing else is ever written by these
operations. -/
theorem claim_C2_command_frames :
    (CMD_OFF = [0xA0, 0x01, 0x00, 0xA1] ∧ CMD_ON = [0xA0, 0x01, 0x03, 0xA4] ∧
     CMD_TOGGLE = [0xA0, 0x01, 0x04, 0xA5] ∧ CMD_STATUS = [0xA0, 0x01, 0x05, 0xA6]) ∧
    ∀ c : Conn,
      (∀ v c', turn_off c = .ok (v, c') → c'.written = c.written ++ [CMD_OFF]) ∧
      (∀ v c', turn_on c = .ok (v, c') → c'.written = c.written ++ [CMD_ON]) ∧
      (∀ v c', toggle c = .ok (v, c') → c'.written = c.written ++ [CMD_TOGGLE]) ∧
      (∀ v c', query_status c = .ok (v, c') → c'.written = c.written ++ [CMD_STATUS]) := by
  refine ⟨⟨rfl, rfl, rfl, rfl⟩, ?_⟩
  intro c
  refine ⟨?_, ?_, ?_, ?_⟩ <;>
    · intro v c' h
      simp only [turn_off, turn_on, toggle, query_status, executeAction, sendCommand] at h
      split_ifs at h <;>
        simp only [reduceCtorEq, Except.ok.injEq, Prod.mk.injEq] at h <;>
        first
          | exact h.elim
          | rw [← h.2]

/-- C2 (witness): a concrete transaction from an open connection with a
buffered `A0 01 01 A2` reply: `turn_on` appends exactly `CMD_ON` to the
write trace. -/
theorem claim_C2_command_frames_witness :
    turn_on { is_open := true, inBuffer := [0xA0, 0x01, 0x01, 0xA2], written := [] } =
      .ok (some true, { is_open := true, inBuffer := [], written := [CMD_ON] }) ∧
    ({ is_open := true, inBuffer := [], written := [CMD_ON] } : Conn).written =
      ({ is_open := true, inBuffer := [0xA0, 0x01, 0x01, 0xA2], written := [] } : Conn).written
        ++ [CMD_ON] :=
  ⟨by rfl,
   ((claim_C2_command_frames.2
      { is_open := true, inBuffer := [0xA0, 0x01, 0x01, 0xA2], written := [] }).2.1)
     (some true) _ (by rfl)⟩

/-- C3: on an open connection, after the settle wait, if zero bytes are
buffered the transaction yields the indeterminate verdict (`none`) with no
further read and no retry; if bytes are buffered, the read consumes all of
them in a single pass and the whole buffer is what `_parse_status`
evaluates. -/
theorem claim_C3_read_all_or_indeterminate :
    ∀ (c : Conn) (cmd : List Nat), c.is_open = true →
      (c.inBuffer = [] →
        executeAction c cmd = .ok (none, { c with written := c.written ++ [cmd] })) ∧
      (c.inBuffer ≠ [] →
        sendCommand c cmd =
          .ok (some c.inBuffer, { c with inBuffer := [], written := c.written ++ [cmd] }) ∧
        executeAction c cmd =
          .ok (parseStatus (some c.inBuffer),
               { c with inBuffer := [], written := c.written ++ [cmd] })) := by
  intro c cmd hopen
  constructor
  · intro hbuf
    simp [executeAction, sendCommand, hopen, hbuf, parseStatus]
  · intro hbuf
    have hlen : c.inBuffer.length > 0 := List.length_pos.mpr hbuf
    constructor
    · simp [sendCommand, hopen, hlen]
    · simp [executeAction, sendCommand, hopen, hlen]

/-- C3 (witness): a concrete empty-buffer transaction yields `none`, and a
concrete 5-byte buffer is read whole and parsed whole. -/
theorem claim_C3_read_all_or_indeterminate_witness :
    executeAction { is_open := true, inBuffer := [], written := [] } CMD_STATUS =
      .ok (none, { is_open := true, inBuffer := [], written := [CMD_STATUS] }) ∧
    executeAction { is_open := true, inBuffer := [0xA0, 0x01, 0x00, 0xA1, 0xFF], written := [] }
        CMD_STATUS =
      .ok (parseStatus (some [0xA0, 0x01, 0x00, 0xA1, 0xFF]),
           { is_open := true, inBuffer := [], written := [CMD_STATUS] }) :=
  ⟨(claim_C3_read_all_or_indeterminate
      { is_open := true, inBuffer := [], written := [] } CMD_STATUS (by decide)).1 (by decide),
   ((claim_C3_read_all_or_indeterminate
      { is_open := true, inBuffer := [0xA0, 0x01, 0x00, 0xA1, 0xFF], written := [] }
      CMD_STATUS (by decide)).2 (by decide)).2⟩

/-- C4: the resolver's sort-then-take-first selection picks the candidate
of lowest priority tier, and among candidates of that lowest tier the one
earliest in enumeration order — expressed as: the head of the stable
tier-sort of any candidate list is the first element whose tier equals the
minimum tier, both for `head?` and for the `headD` form the resolver uses
on a non-empty list; in particular a tier-1 candidate beats a tier-2
candidate in either enumeration order. -/
theorem claim_C4_lowest_tier_earliest_selected :
    (∀ l : List Candidate,
      (sortByTier l).head? = l.find? (fun c => c.tier == minTier l)) ∧
    (∀ (c0 : Candidate) (rest : List Candidate),
      some ((sortByTier (c0 :: rest)).headD c0) =
        (c0 :: rest).find? (fun c => c.tier == minTier (c0 :: rest))) ∧
    (∀ a b : Candidate, a.tier = 1 → b.tier = 2 →
      (sortByTier [a, b]).head? = some a ∧ (sortByTier [b, a]).head? = some a) := by
  have main : ∀ l : List Candidate,
      (sortByTier l).head? = l.find? (fun c => c.tier == minTier l) := by
    intro l
    induction l with
    | nil => rfl
    | cons x xs ih =>
      cases xs with
      | nil => simp [sortByTier, insertByTier, minTier, List.find?]
      | cons y ys =>
        obtain ⟨e, he⟩ := sortByTier_head?_isSome y ys
        have het : e.tier = minTier (y :: ys) := sortByTier_head?_tier _ _ he
        rw [sortByTier_cons, insertByTier_head?, he, minTier_cons]
        by_cases hc : x.tier ≤ minTier (y :: ys)
        · have hmin : x.tier ⊓ minTier (y :: ys) = x.tier := by omega
          rw [hmin, List.find?_cons]
          have hpx : (x.tier == x.tier) = true := by simp
          rw [hpx]
          have hle : x.tier ≤ e.tier := het ▸ hc
          simp [hle]
        · have hmin : x.tier ⊓ minTier (y :: ys) = minTier (y :: ys) := by omega
          rw [hmin, List.find?_cons]
          have hpx : (x.tier == minTier (y :: ys)) = false := by
            simp only [beq_eq_false_iff_ne, ne_eq]
            omega
          rw [hpx]
          have hgt : ¬ x.tier ≤ e.tier := by omega
          simp only [hgt, if_false]
          rw [he.symm.trans (ih)]
  refine ⟨main, ?_, ?_⟩
  · intro c0 rest
    obtain ⟨d, hd⟩ := sortByTier_head?_isSome c0 rest
    rw [List.headD_eq_head?, hd, Option.getD_some, ← hd, main]
  · intro a b ha hb
    constructor <;> simp [sortByTier, insertByTier, ha, hb]

/-- C4 (witness): on the spec's example — a tier-2 "Generic USB Serial"
candidate enumerated before a tier-1 "CH340 serial" candidate — the
selection formula picks the tier-1 candidate, and the tier-1-beats-tier-2
part applies at those concrete candidates. -/
theorem claim_C4_lowest_tier_earliest_selected_witness :
    some ((sortByTier
        [{ device := "B".data, desc := some "Generic USB Serial".data, tier := 2 },
         { device := "A".data, desc := some "CH340 serial".data, tier := 1 }]).headD
        { device := "B".data, desc := some "Generic USB Serial".data, tier := 2 }) =
      some { device := "A".data, desc := some "CH340 serial".data, tier := 1 } ∧
    (sortByTier
        [{ device := "A".data, desc := some "CH340 serial".data, tier := 1 },
         { device := "B".data, desc := some "Generic USB Serial".data, tier := 2 }]).head? =
      some { device := "A".data, desc := some "CH340 serial".data, tier := 1 } := by
  constructor
  · rw [(claim_C4_lowest_tier_earliest_selected.2.1
      { device := "B".data, desc := some "Generic USB Serial".data, tier := 2 }
      [{ device := "A".data, desc := some "CH340 serial".data, tier := 1 }])]
    rfl
  · exact (claim_C4_lowest_tier_earliest_selected.2.2
      { device := "A".data, desc := some "CH340 serial".data, tier := 1 }
      { device := "B".data, desc := some "Generic USB Serial".data, tier := 2 }
      rfl rfl).1

/-- C5: classification uppercases the description and tests keyword
membership in order — a chipset keyword (CH340/CH341/USB-SERIAL) yields a
tier-1 candidate; otherwise the generic keyword USB yields a tier-2
candidate; a port matching neither, in particular one with an absent or
empty description, is excluded; and classification depends on the
description only through its uppercase image, so descriptions equal up to
case classify identically. -/
theorem claim_C5_keyword_classification :
    ∀ p : PortInfo,
      (CH340_KEYWORDS.any (fun kw => containsSub (upperDesc p) kw) = true →
        classify p = some { device := p.device, desc := p.description, tier := 1 }) ∧
      (CH340_KEYWORDS.any (fun kw => containsSub (upperDesc p) kw) = false →
        USB_KEYWORDS.any (fun kw => containsSub (upperDesc p) kw) = true →
        classify p = some { device := p.device, desc := p.description, tier := 2 }) ∧
      (CH340_KEYWORDS.any (fun kw => containsSub (upperDesc p) kw) = false →
        USB_KEYWORDS.any (fun kw => containsSub (upperDesc p) kw) = false →
        classify p = none) ∧
      ((p.description = none ∨ p.description = some []) → classify p = none) ∧
      (∀ q : PortInfo, upperDesc p = upperDesc q →
        (classify p).map Candidate.tier = (classify q).map Candidate.tier) := by
  intro p
  refine ⟨?_, ?_, ?_, ?_, ?_⟩
  · intro h; simp [classify, h]
  · intro h1 h2; simp [classify, h1, h2]
  · intro h1 h2; simp [classify, h1, h2]
  · rintro (h | h) <;> simp [classify, upperDesc, h, containsSub,
      CH340_KEYWORDS, USB_KEYWORDS, List.isPrefixOf]
  · intro q hq
    simp only [classify, hq]
    split_ifs <;> rfl

/-- C5 (witness): a lowercase "ch340 serial" description is a tier-1
candidate (case-insensitive chipset match), "Generic USB Hub" is tier-2,
and a port with no description is excluded. -/
theorem claim_C5_keyword_classification_witness :
    classify { device := "COM3".data, description := some "ch340 serial".data } =
      some { device := "COM3".data, desc := some "ch340 serial".data, tier := 1 } ∧
    classify { device := "COM4".data, description := some "Generic USB Hub".data } =
      some { device := "COM4".data, desc := some "Generic USB Hub".data, tier := 2 } ∧
    classify { device := "COM5".data, description := none } = none :=
  ⟨(claim_C5_keyword_classification
      { device := "COM3".data, description := some "ch340 serial".data }).1 (by decide),
   ((claim_C5_keyword_classification
      { device := "COM4".data, description := some "Generic USB Hub".data }).2.1
      (by decide) (by decide)),
   ((claim_C5_keyword_classification
      { device := "COM5".data, description := none }).2.2.2.1 (Or.inl rfl))⟩

/-- C6: when no enumerated port matches either keyword set (in particular
for an empty port list), `_auto_detect_port` raises the discovery error
and performs zero port-open attempts — the confirmation probe is never
reached. -/
theorem claim_C6_discovery_failure_no_probe :
    ∀ (ports : List PortInfo) (probe : List Char → Except (List Char) Unit),
      candidatesOf ports = [] →
      autoDetectPort ports probe = (.error .discoveryFailure, 0) := by
  intro ports probe h
  simp [autoDetectPort, h]

/-- C6 (witness): an empty port list, and a list whose only port has a
non-matching "Bluetooth Device" description, both fail discovery with
zero open attempts. -/
theorem claim_C6_discovery_failure_no_probe_witness :
    autoDetectPort [] (fun _ => .ok ()) = (.error .discoveryFailure, 0) ∧
    autoDetectPort [{ device := "COM1".data, description := some "Bluetooth Device".data }]
        (fun _ => .ok ()) = (.error .discoveryFailure, 0) :=
  ⟨claim_C6_discovery_failure_no_probe [] (fun _ => .ok ()) rfl,
   claim_C6_discovery_failure_no_probe
     [{ device := "COM1".data, description := some "Bluetooth Device".data }]
     (fun _ => .ok ()) (by decide)⟩

/-- C7 (counterexample): the claim states that every explicitly supplied
port identifier bypasses discovery and is used as-is; but `__init__` uses
`port or self._auto_detect_port()`, and the Python `or` treats the empty
string as falsy, so an explicitly supplied empty identifier still runs
discovery: at the concrete input below the result is the discovered
`"COM7"` with the discovery flag set, not the supplied identifier with
discovery bypassed. -/
theorem claim_C7_counterexample :
    relayControllerInit (some [])
        [{ device := "COM7".data, description := some "CH340 serial".data }]
        (fun _ => .ok ()) = (.ok "COM7".data, true) ∧
    ((Except.ok "COM7".data : Except DetectError (List Char)), true) ≠
      ((Except.ok ([] : List Char) : Except DetectError (List Char)), false) := by
  constructor
  · rfl
  · simp

/-- C7 (amended): for every non-empty explicitly supplied port identifier,
construction bypasses discovery entirely and uses the identifier as-is;
discovery is invoked when the port argument is omitted, and also — the
correction — when the supplied identifier is the empty string (Python
falsiness of `port` in `port or self._auto_detect_port()`). -/
theorem claim_C7_explicit_port_bypasses_discovery :
    ∀ (p : List Char) (ports : List PortInfo)
      (probe : List Char → Except (List Char) Unit),
      (p ≠ [] → relayControllerInit (some p) ports probe = (.ok p, false)) ∧
      relayControllerInit none ports probe = ((autoDetectPort ports probe).1, true) ∧
      (p = [] → relayControllerInit (some p) ports probe =
        ((autoDetectPort ports probe).1, true)) := by
  intro p ports probe
  refine ⟨?_, rfl, ?_⟩
  · intro h
    simp [relayControllerInit, List.isEmpty_iff, h]
  · intro h
    subst h
    rfl

/-- C7 (witness): the non-empty identifier `"COM5"` is used as-is with no
discovery. -/
theorem claim_C7_explicit_port_bypasses_discovery_witness :
    relayControllerInit (some "COM5".data) [] (fun _ => .ok ()) =
      (.ok "COM5".data, false) :=
  (claim_C7_explicit_port_bypasses_discovery "COM5".data [] (fun _ => .ok ())).1
    (by decide)

/-- C8: when the candidate list is non-empty and the confirmation probe of
the selected device raises a transport-level error, `_auto_detect_port`
fails with the access/driver error — which carries the selected port and
the underlying transport reason — after exactly one open attempt; that
error is distinct from the no-candidates discovery error (two distinct
`raise` sites with distinct messages in the source, the access one built
from the `SerialException` and chained with `from e`). -/
theorem claim_C8_access_failure_distinct :
    ∀ (ports : List PortInfo) (probe : List Char → Except (List Char) Unit)
      (c0 : Candidate) (rest : List Candidate) (reason : List Char),
      candidatesOf ports = c0 :: rest →
      probe ((sortByTier (c0 :: rest)).headD c0).device = .error reason →
      autoDetectPort ports probe =
        (.error (.accessFailure ((sortByTier (c0 :: rest)).headD c0).device reason), 1) ∧
      (∀ dev r : List Char, DetectError.accessFailure dev r ≠ DetectError.discoveryFailure) := by
  intro ports probe c0 rest reason hc hp
  rw [List.headD_eq_head?] at hp
  refine ⟨?_, ?_⟩
  · simp [autoDetectPort, hc, hp, List.headD_eq_head?]
  · intro dev r h
    exact DetectError.noConfusion h

/-- C8 (witness): one CH340 port whose probe fails with reason `"busy"`
produces the access failure carrying that port and reason, after one open
attempt. -/
theorem claim_C8_access_failure_distinct_witness :
    autoDetectPort [{ device := "COM3".data, description := some "CH340".data }]
        (fun _ => .error "busy".data) =
      (.error (.accessFailure "COM3".data "busy".data), 1) ∧
    DetectError.accessFailure "COM3".data "busy".data ≠ DetectError.discoveryFailure := by
  have h := claim_C8_access_failure_distinct
    [{ device := "COM3".data, description := some "CH340".data }]
    (fun _ => .error "busy".data)
    { device := "COM3".data, desc := some "CH340".data, tier := 1 } [] "busy".data
    (by decide) rfl
  exact ⟨by rw [h.1]; rfl, h.2 "COM3".data "busy".data⟩

/-- C9: on every exit path of the `with controller:` scope — whatever
verdict or error the transaction body produces, and however it transforms
the connection state — the final serial handle is closed; and the exit
handler is total and safe when the connection was never opened (a `None`
handle is left untouched) and always leaves any handle closed. -/
theorem claim_C9_connection_closed_on_exit :
    (∀ (body : Conn → Except TxError (Option Bool) × Conn)
       (r : Except TxError (Option Bool)) (c : Conn),
        runWith body = (r, some c) → c.is_open = false) ∧
    exitHandler none = none ∧
    (∀ (sp : Option Conn) (c : Conn), exitHandler sp = some c → c.is_open = false) := by
  have hexit : ∀ (sp : Option Conn) (c : Conn),
      exitHandler sp = some c → c.is_open = false := by
    intro sp c h
    cases sp with
    | none => simp [exitHandler] at h
    | some d =>
      simp only [exitHandler] at h
      split_ifs at h with hd
      · rw [← Option.some_inj.mp h]
      · rw [← Option.some_inj.mp h]
        simpa using hd
  refine ⟨?_, rfl, hexit⟩
  intro body r c h
  have h2 : exitHandler (some (body openConn).2) = some c := by
    have := congrArg Prod.snd h
    simpa [runWith] using this
  exact hexit _ _ h2

/-- C9 (witness): a body that completes normally with the indeterminate
verdict leaves the connection closed. -/
theorem claim_C9_connection_closed_on_exit_witness :
    runWith (fun c => (.ok none, c)) =
      (.ok none, some { is_open := false, inBuffer := [], written := [] }) ∧
    ({ is_open := false, inBuffer := [], written := [] } : Conn).is_open = false :=
  ⟨by rfl,
   claim_C9_connection_closed_on_exit.1 (fun c => (.ok none, c)) (.ok none)
     { is_open := false, inBuffer := [], written := [] } (by rfl)⟩

/-- C10: the chipset keyword set is tested first (`if`/`elif`), so every
port contributes at most one candidate at exactly one tier: a chipset
match is always tier 1, a tier-2 candidate can only arise when no chipset
keyword matched, and a description containing "USB-SERIAL" — which also
contains "USB" — is classified tier 1, never tier 2. -/
theorem claim_C10_chipset_precedence :
    ∀ p : PortInfo,
      (CH340_KEYWORDS.any (fun kw => containsSub (upperDesc p) kw) = true →
        classify p = some { device := p.device, desc := p.description, tier := 1 }) ∧
      (∀ c, classify p = some c → c.tier = 2 →
        CH340_KEYWORDS.any (fun kw => containsSub (upperDesc p) kw) = false) ∧
      (containsSub (upperDesc p) "USB-SERIAL".data = true →
        containsSub (upperDesc p) "USB".data = true ∧
        classify p = some { device := p.device, desc := p.description, tier := 1 }) := by
  intro p
  refine ⟨?_, ?_, ?_⟩
  · intro h
    simp [classify, h]
  · intro c hc ht
    by_contra hch
    rw [Bool.not_eq_false] at hch
    simp only [classify, hch, if_true] at hc
    rw [← Option.some_inj.mp hc] at ht
    simp at ht
  · intro h
    have hch : CH340_KEYWORDS.any (fun kw => containsSub (upperDesc p) kw) = true := by
      simp only [CH340_KEYWORDS, List.any_cons, List.any_nil, Bool.or_eq_true]
      exact Or.inr (Or.inr (Or.inl h))
    exact ⟨containsSub_mono (by decide) h, by simp [classify, hch]⟩

/-- C10 (witness): the lowercase description "usb-serial adapter" contains
both "USB-SERIAL" and "USB" after uppercasing, and is classified tier 1
only. -/
theorem claim_C10_chipset_precedence_witness :
    containsSub
        (upperDesc { device := "COM9".data, description := some "usb-serial adapter".data })
        "USB".data = true ∧
    classify { device := "COM9".data, description := some "usb-serial adapter".data } =
      some { device := "COM9".data, desc := some "usb-serial adapter".data, tier := 1 } :=
  (claim_C10_chipset_precedence
    { device := "COM9".data, description := some "usb-serial adapter".data }).2.2
    (by decide)

end RelayControl
